import Mathlib

/-!
# goav/avfilter: the cgo binding to libavfilter

A shallow embedding of `goav/avfilter/avfilter.go`.

* Pointers are machine addresses (`Addr`), `0` being Go's `nil` and C's `NULL`.
  Converting a pointer between Go and C pointer types keeps the address, so the
  casts of the source leave no trace here.
* The memory that both sides see is a heap of typed objects (`World.heap`).
* The native library is a parameter (`Native`): one field per C function the
  package calls, taking the arguments with their C types and the world, and
  giving back the C result and the new world, or a crash.
* Go's `int` and `uint` are 32 or 64 bits wide (`Arch`); C's `int` and
  `unsigned` are 32 bits wide. Conversions wrap, as in Go.
-/

namespace Avfilter

/-! ## Machine integers -/

/-- A machine address; 0 is the null pointer. -/
abbrev Addr := Nat

/-- A byte of a Go string or of a C char buffer (a value below 256). -/
abbrev Byte := Nat

/-- The Go target: the width of the Go types int and uint. -/
inductive Arch where
  | bits32
  | bits64
deriving DecidableEq, Repr

/-- Width in bits of the Go types int and uint. -/
def Arch.intBits : Arch → Nat
  | .bits32 => 32
  | .bits64 => 64

/-- Two's complement reading of an integer at a given width, as a signed number. -/
def wrapS (bits : Nat) (v : Int) : Int :=
  (v + 2 ^ (bits - 1)) % 2 ^ bits - 2 ^ (bits - 1)

/-- Two's complement reading of an integer at a given width, as an unsigned number. -/
def wrapU (bits : Nat) (v : Int) : Nat :=
  (v % 2 ^ bits).toNat

/-- Range of the C type int (32 bits, signed). -/
def InCInt (r : Int) : Prop := -2 ^ 31 ≤ r ∧ r < 2 ^ 31

instance (r : Int) : Decidable (InCInt r) := by
  unfold InCInt
  exact inferInstance

/-- The conversion `C.int(x)` of a Go int. -/
def C.int (x : Int) : Int := wrapS 32 x

/-- The conversion `C.uint(x)` of a Go uint. -/
def C.uint (x : Nat) : Nat := x % 2 ^ 32

/-- The conversion `int(x)` of a C int to the Go type int. -/
def goInt (a : Arch) (x : Int) : Int := wrapS a.intBits x

/-- The conversion `uint(x)` of a C int or C unsigned to the Go type uint. -/
def goUint (a : Arch) (x : Int) : Nat := wrapU a.intBits x

/-! ## The data model: C structs seen through the Go type aliases -/

/-- Go type Input, C struct AVFilterInOut (libavfilter/avfilter.h); name is its first member. -/
structure Input where
  name : Addr
  filter_ctx : Addr
  pad_idx : Int
  next : Addr
deriving DecidableEq, Repr

/-- Go type Context, C struct AVFilterContext. The package reads and writes the member
hw_device_ctx only; the remaining members are kept as raw words in others. -/
structure Context where
  hw_device_ctx : Addr
  others : List Int
deriving DecidableEq, Repr

/-- Go type BufferSrcParameters, C struct AVBufferSrcParameters. The package writes the member
hw_frames_ctx only; the remaining members are kept as raw words in others. -/
structure BufferSrcParameters where
  hw_frames_ctx : Addr
  others : List Int
deriving DecidableEq, Repr

/-- An object living in memory at some address. -/
inductive Obj where
  | context (c : Context)
  | inout (i : Input)
  | params (p : BufferSrcParameters)
  | chars (bs : List Byte)
  | cell (p : Addr)
  | pads (names : List Addr)
deriving DecidableEq, Repr

/-- Ways a call can fail to return. -/
inductive Fault where
  | nilDeref
  | wildAccess
  | native
deriving DecidableEq, Repr

/-- The state of the process: the heap, the last address handed out by the C allocator,
and the private state of the native library. -/
structure World (ω : Type) where
  heap : Addr → Option Obj
  top : Addr
  lib : ω

variable {ω : Type}

/-- Overwrite the object at one address. -/
def World.store (w : World ω) (a : Addr) (o : Obj) : World ω :=
  { w with heap := Function.update w.heap a (some o) }

/-- What a Go field access through a pointer to Context reads: nil panics. -/
def derefContext (p : Addr) (w : World ω) : Except Fault Context :=
  if p = 0 then .error .nilDeref
  else match w.heap p with
    | some (.context c) => .ok c
    | _ => .error .wildAccess

/-- What a Go field access through a pointer to Input reads: nil panics. -/
def derefInput (p : Addr) (w : World ω) : Except Fault Input :=
  if p = 0 then .error .nilDeref
  else match w.heap p with
    | some (.inout i) => .ok i
    | _ => .error .wildAccess

/-- What a Go field access through a pointer to BufferSrcParameters reads: nil panics. -/
def derefParams (p : Addr) (w : World ω) : Except Fault BufferSrcParameters :=
  if p = 0 then .error .nilDeref
  else match w.heap p with
    | some (.params s) => .ok s
    | _ => .error .wildAccess

/-- What C reads when it dereferences an address as a pointer to a pointer: the content of a
pointer cell, or the first member of a struct placed there. -/
def loadPtr (a : Addr) (w : World ω) : Except Fault Addr :=
  if a = 0 then .error .wildAccess
  else match w.heap a with
    | some (.cell p) => .ok p
    | some (.inout i) => .ok i.name
    | _ => .error .wildAccess

/-! ## cgo helpers -/

/-- The cgo helper C.GoString: a null pointer gives the empty string, otherwise the bytes up to
the terminating NUL are copied. Reading past the end of the buffer is a wild access. -/
def C.GoString (p : Addr) (w : World ω) : Except Fault (List Byte) :=
  if p = 0 then .ok []
  else match w.heap p with
    | some (.chars bs) => if 0 ∈ bs then .ok (bs.takeWhile (· ≠ 0)) else .error .wildAccess
    | _ => .error .wildAccess

/-- The cgo helper C.CString: a fresh C buffer of len(s)+1 bytes holding s and a final NUL. -/
def C.CString (s : List Byte) (w : World ω) : Addr × World ω :=
  (w.top + 1,
   { w with heap := Function.update w.heap (w.top + 1) (some (.chars (s ++ [0]))),
            top := w.top + (s.length + 1) })

/-! ## The native library -/

/-- A native function returning a value. -/
abbrev NativeFn (ω : Type) (α : Type) := World ω → Except Fault (α × World ω)

/-- A native function returning void. -/
abbrev NativeProc (ω : Type) := World ω → Except Fault (World ω)

/-- The C functions of libavfilter the package calls, arguments at their C types. -/
structure Native (ω : Type) where
  avfilter_version : NativeFn ω Nat
  avfilter_configuration : NativeFn ω Addr
  avfilter_license : NativeFn ω Addr
  avfilter_pad_count : Addr → NativeFn ω Int
  avfilter_pad_get_name : Addr → Int → NativeFn ω Addr
  avfilter_pad_get_type : Addr → Int → NativeFn ω Int
  avfilter_link : Addr → Nat → Addr → Nat → NativeFn ω Int
  avfilter_link_free : Addr → NativeProc ω
  avfilter_link_get_channels : Addr → NativeFn ω Int
  avfilter_link_set_closed : Addr → Int → NativeProc ω
  avfilter_config_links : Addr → NativeFn ω Int
  avfilter_process_command : Addr → Addr → Addr → Addr → Int → Int → NativeFn ω Int
  avfilter_register_all : NativeProc ω
  avfilter_init_str : Addr → Addr → NativeFn ω Int
  avfilter_init_dict : Addr → Addr → NativeFn ω Int
  avfilter_free : Addr → NativeProc ω
  avfilter_insert_filter : Addr → Addr → Nat → Nat → NativeFn ω Int
  avfilter_get_class : NativeFn ω Addr
  avfilter_inout_alloc : NativeFn ω Addr
  avfilter_inout_free : Addr → NativeProc ω
  av_buffersink_get_frame : Addr → Addr → NativeFn ω Int
  av_buffersink_get_frame_flags : Addr → Addr → Int → NativeFn ω Int
  av_buffersrc_write_frame : Addr → Addr → NativeFn ω Int
  av_buffersrc_add_frame : Addr → Addr → NativeFn ω Int
  av_buffersrc_parameters_set : Addr → Addr → NativeFn ω Int
  av_buffersrc_parameters_alloc : NativeFn ω Addr
  av_buffersink_get_hw_frames_ctx : Addr → NativeFn ω Addr

/-- Hand a C int result back as a Go int. -/
def retInt (a : Arch) (r : Int × World ω) : Int × World ω := (goInt a r.1, r.2)

/-- Hand a C string result back as a Go string. -/
def retString (r : Except Fault (Addr × World ω)) : Except Fault (List Byte × World ω) :=
  match r with
  | .ok (p, w) =>
    match C.GoString p w with
    | .ok s => .ok (s, w)
    | .error e => .error e
  | .error e => .error e

/-! ## The package's functions, in source order -/

/-- Go: return uint(C.avfilter_version()). -/
def AvfilterVersion (a : Arch) (N : Native ω) (w : World ω) : Except Fault (Nat × World ω) :=
  (N.avfilter_version w).map fun r => (goUint a r.1, r.2)

/-- Go: return C.GoString(C.avfilter_configuration()). -/
def AvfilterConfiguration (N : Native ω) (w : World ω) : Except Fault (List Byte × World ω) :=
  retString (N.avfilter_configuration w)

/-- Go: return C.GoString(C.avfilter_license()). -/
def AvfilterLicense (N : Native ω) (w : World ω) : Except Fault (List Byte × World ω) :=
  retString (N.avfilter_license w)

/-- Go: return int(C.avfilter_pad_count(p)). -/
def AvfilterPadCount (a : Arch) (N : Native ω) (p : Addr) (w : World ω) :
    Except Fault (Int × World ω) :=
  (N.avfilter_pad_count p w).map (retInt a)

/-- Go: return C.GoString(C.avfilter_pad_get_name(p, C.int(pi))). -/
def AvfilterPadGetName (N : Native ω) (p : Addr) (pi : Int) (w : World ω) :
    Except Fault (List Byte × World ω) :=
  retString (N.avfilter_pad_get_name p (C.int pi) w)

/-- Go: return (MediaType)(C.avfilter_pad_get_type(p, C.int(pi))); MediaType is the C enum
itself, so the result is handed back as it is. -/
def AvfilterPadGetType (N : Native ω) (p : Addr) (pi : Int) (w : World ω) :
    Except Fault (Int × World ω) :=
  N.avfilter_pad_get_type p (C.int pi) w

/-- Go: return int(C.avfilter_link(s, C.uint(sp), d, C.uint(dp))). -/
def AvfilterLink (a : Arch) (N : Native ω) (s : Addr) (sp : Nat) (d : Addr) (dp : Nat)
    (w : World ω) : Except Fault (Int × World ω) :=
  (N.avfilter_link s (C.uint sp) d (C.uint dp) w).map (retInt a)

/-- Go: C.avfilter_link_free(l), l being the address of a Link pointer. -/
def AvfilterLinkFree (N : Native ω) (l : Addr) (w : World ω) : Except Fault (World ω) :=
  N.avfilter_link_free l w

/-- Go: return int(C.avfilter_link_get_channels(l)). -/
def AvfilterLinkGetChannels (a : Arch) (N : Native ω) (l : Addr) (w : World ω) :
    Except Fault (Int × World ω) :=
  (N.avfilter_link_get_channels l w).map (retInt a)

/-- Go: C.avfilter_link_set_closed(l, C.int(c)). -/
def AvfilterLinkSetClosed (N : Native ω) (l : Addr) (c : Int) (w : World ω) :
    Except Fault (World ω) :=
  N.avfilter_link_set_closed l (C.int c) w

/-- Go: return int(C.avfilter_config_links(f)). -/
def AvfilterConfigLinks (a : Arch) (N : Native ω) (f : Addr) (w : World ω) :
    Except Fault (Int × World ω) :=
  (N.avfilter_config_links f w).map (retInt a)

/-- Go: return int(C.avfilter_process_command(f, C.CString(cmd), C.CString(arg),
C.CString(res), C.int(l), C.int(fl))). -/
def AvfilterProcessCommand (a : Arch) (N : Native ω) (f : Addr) (cmd arg res : List Byte)
    (l fl : Int) (w : World ω) : Except Fault (Int × World ω) :=
  let c := C.CString cmd w
  let g := C.CString arg c.2
  let r := C.CString res g.2
  (N.avfilter_process_command f c.1 g.1 r.1 (C.int l) (C.int fl) r.2).map (retInt a)

/-- Go: C.avfilter_register_all(). -/
def AvfilterRegisterAll (N : Native ω) (w : World ω) : Except Fault (World ω) :=
  N.avfilter_register_all w

/-- Go: return int(C.avfilter_init_str(ctx, C.CString(args))). -/
def Context.AvfilterInitStr (a : Arch) (N : Native ω) (ctx : Addr) (args : List Byte)
    (w : World ω) : Except Fault (Int × World ω) :=
  let c := C.CString args w
  (N.avfilter_init_str ctx c.1 c.2).map (retInt a)

/-- Go: return int(C.avfilter_init_dict(ctx, o)), o being the address of a Dictionary pointer. -/
def Context.AvfilterInitDict (a : Arch) (N : Native ω) (ctx : Addr) (o : Addr)
    (w : World ω) : Except Fault (Int × World ω) :=
  (N.avfilter_init_dict ctx o w).map (retInt a)

/-- Go: C.avfilter_free(ctx). -/
def Context.AvfilterFree (N : Native ω) (ctx : Addr) (w : World ω) : Except Fault (World ω) :=
  N.avfilter_free ctx w

/-- Go: return int(C.avfilter_insert_filter(l, f, C.uint(fsi), C.uint(fdi))). -/
def AvfilterInsertFilter (a : Arch) (N : Native ω) (l f : Addr) (fsi fdi : Nat)
    (w : World ω) : Except Fault (Int × World ω) :=
  (N.avfilter_insert_filter l f (C.uint fsi) (C.uint fdi) w).map (retInt a)

/-- Go: return (*Class)(C.avfilter_get_class()). -/
def AvfilterGetClass (N : Native ω) (w : World ω) : Except Fault (Addr × World ω) :=
  N.avfilter_get_class w

/-- Go: return (*Input)(C.avfilter_inout_alloc()). -/
def AvfilterInoutAlloc (N : Native ω) (w : World ω) : Except Fault (Addr × World ω) :=
  N.avfilter_inout_alloc w

/-- Go: C.avfilter_inout_free((**C.struct_AVFilterInOut)(unsafe.Pointer(i))): the Input
pointer i itself is handed over as the address of a pointer. -/
def AvfilterInoutFree (N : Native ω) (i : Addr) (w : World ω) : Except Fault (World ω) :=
  N.avfilter_inout_free i w

/-- Go: return (*Context)(i.filter_ctx). -/
def Input.FilterContext (i : Addr) (w : World ω) : Except Fault Addr :=
  (derefInput i w).map fun s => s.filter_ctx

/-- Go: return (*Input)(i.next). -/
def Input.Next (i : Addr) (w : World ω) : Except Fault Addr :=
  (derefInput i w).map fun s => s.next

/-- Go: return (uint)(i.pad_idx). -/
def Input.PadIdx (a : Arch) (i : Addr) (w : World ω) : Except Fault Nat :=
  (derefInput i w).map fun s => goUint a s.pad_idx

/-- Go: return (int)(C.av_buffersink_get_frame(c, f)). -/
def AvBufferSinkGetFrame (a : Arch) (N : Native ω) (c f : Addr) (w : World ω) :
    Except Fault (Int × World ω) :=
  (N.av_buffersink_get_frame c f w).map (retInt a)

/-- Go: return (int)(C.av_buffersink_get_frame_flags(c, f, C.int(flag))). -/
def AvBufferSinkGetFrameFlags (a : Arch) (N : Native ω) (c f : Addr) (flag : Int)
    (w : World ω) : Except Fault (Int × World ω) :=
  (N.av_buffersink_get_frame_flags c f (C.int flag) w).map (retInt a)

/-- Go: return (int)(C.av_buffersrc_write_frame(c, f)). -/
def AvBuffersrcWriteFrame (a : Arch) (N : Native ω) (c f : Addr) (w : World ω) :
    Except Fault (Int × World ω) :=
  (N.av_buffersrc_write_frame c f w).map (retInt a)

/-- Go: return (int)(C.av_buffersrc_add_frame(c, f)). -/
def AvBuffersrcAddFrame (a : Arch) (N : Native ω) (c f : Addr) (w : World ω) :
    Except Fault (Int × World ω) :=
  (N.av_buffersrc_add_frame c f w).map (retInt a)

/-- Go: ctx.hw_device_ctx = (*C.struct_AVBufferRef)(unsafe.Pointer(hw_device_ctx)). -/
def Context.SetHWDeviceCtx (ctx : Addr) (hw_device_ctx : Addr) (w : World ω) :
    Except Fault (World ω) :=
  (derefContext ctx w).map fun c =>
    w.store ctx (.context { c with hw_device_ctx := hw_device_ctx })

/-- Go: return (*avutil.BufferRef)(unsafe.Pointer(ctx.hw_device_ctx)). -/
def Context.HWDeviceCtx (ctx : Addr) (w : World ω) : Except Fault Addr :=
  (derefContext ctx w).map fun c => c.hw_device_ctx

/-- Go: return (int)(C.av_buffersrc_parameters_set(ctx, par)). -/
def Context.AvBuffersrcParametersSet (a : Arch) (N : Native ω) (ctx par : Addr)
    (w : World ω) : Except Fault (Int × World ω) :=
  (N.av_buffersrc_parameters_set ctx par w).map (retInt a)

/-- Go: return (*BufferSrcParameters)(C.av_buffersrc_parameters_alloc()). -/
def AvBuffersrcParametersAlloc (N : Native ω) (w : World ω) : Except Fault (Addr × World ω) :=
  N.av_buffersrc_parameters_alloc w

/-- Go: p.hw_frames_ctx = (*C.struct_AVBufferRef)(unsafe.Pointer(hw_frames_ctx)). -/
def BufferSrcParameters.SetHwFramesCtx (p : Addr) (hw_frames_ctx : Addr) (w : World ω) :
    Except Fault (World ω) :=
  (derefParams p w).map fun s =>
    w.store p (.params { s with hw_frames_ctx := hw_frames_ctx })

/-- Go: return (*avutil.BufferRef)(unsafe.Pointer(C.av_buffersink_get_hw_frames_ctx(ctx))). -/
def Context.AvBuffersinkGetHwFramesCtx (N : Native ω) (ctx : Addr) (w : World ω) :
    Except Fault (Addr × World ω) :=
  N.av_buffersink_get_hw_frames_ctx ctx w

/-! ## A reference model of one native function -/

/-- Modelled from the spec: libavfilter's own avfilter_pad_count, which is not part of this
repository. It gives the number of elements of a NULL-terminated array of pads (the array ends
at the first pad whose name is null), and 0 for a null pad list. -/
def libavfilter.avfilter_pad_count (pads : Addr) (w : World ω) : Except Fault (Int × World ω) :=
  if pads = 0 then .ok (0, w)
  else match w.heap pads with
    | some (.pads names) =>
      if 0 ∈ names then .ok (((names.takeWhile (· ≠ 0)).length : Int), w)
      else .error .wildAccess
    | _ => .error .wildAccess

/-! ## A recording stand-in for the native library

It writes down every call it receives with the arguments as received, answers every
status-returning call with one fixed status and every pointer-returning call with one fixed
pointer, and leaves the heap alone. -/

/-- One call as the native side received it: the C function and its arguments. -/
abbrev Event := String × List Int

/-- Append one event to the journal. -/
def record (e : Event) (w : World (List Event)) : World (List Event) :=
  { w with lib := w.lib ++ [e] }

/-- The recording library. -/
def recorder (status : Int) (ptr : Addr) : Native (List Event) where
  avfilter_version := fun w => .ok (0, record ("avfilter_version", []) w)
  avfilter_configuration := fun w => .ok (ptr, record ("avfilter_configuration", []) w)
  avfilter_license := fun w => .ok (ptr, record ("avfilter_license", []) w)
  avfilter_pad_count := fun p w => .ok (status, record ("avfilter_pad_count", [p]) w)
  avfilter_pad_get_name := fun p i w => .ok (ptr, record ("avfilter_pad_get_name", [p, i]) w)
  avfilter_pad_get_type := fun p i w =>
    .ok (status, record ("avfilter_pad_get_type", [p, i]) w)
  avfilter_link := fun s sp d dp w =>
    .ok (status, record ("avfilter_link", [s, sp, d, dp]) w)
  avfilter_link_free := fun l w => .ok (record ("avfilter_link_free", [l]) w)
  avfilter_link_get_channels := fun l w =>
    .ok (status, record ("avfilter_link_get_channels", [l]) w)
  avfilter_link_set_closed := fun l c w =>
    .ok (record ("avfilter_link_set_closed", [l, c]) w)
  avfilter_config_links := fun f w => .ok (status, record ("avfilter_config_links", [f]) w)
  avfilter_process_command := fun f c g r l fl w =>
    .ok (status, record ("avfilter_process_command", [f, c, g, r, l, fl]) w)
  avfilter_register_all := fun w => .ok (record ("avfilter_register_all", []) w)
  avfilter_init_str := fun c s w => .ok (status, record ("avfilter_init_str", [c, s]) w)
  avfilter_init_dict := fun c o w => .ok (status, record ("avfilter_init_dict", [c, o]) w)
  avfilter_free := fun c w => .ok (record ("avfilter_free", [c]) w)
  avfilter_insert_filter := fun l f si di w =>
    .ok (status, record ("avfilter_insert_filter", [l, f, si, di]) w)
  avfilter_get_class := fun w => .ok (ptr, record ("avfilter_get_class", []) w)
  avfilter_inout_alloc := fun w => .ok (ptr, record ("avfilter_inout_alloc", []) w)
  avfilter_inout_free := fun i w => .ok (record ("avfilter_inout_free", [i]) w)
  av_buffersink_get_frame := fun c f w =>
    .ok (status, record ("av_buffersink_get_frame", [c, f]) w)
  av_buffersink_get_frame_flags := fun c f fl w =>
    .ok (status, record ("av_buffersink_get_frame_flags", [c, f, fl]) w)
  av_buffersrc_write_frame := fun c f w =>
    .ok (status, record ("av_buffersrc_write_frame", [c, f]) w)
  av_buffersrc_add_frame := fun c f w =>
    .ok (status, record ("av_buffersrc_add_frame", [c, f]) w)
  av_buffersrc_parameters_set := fun c p w =>
    .ok (status, record ("av_buffersrc_parameters_set", [c, p]) w)
  av_buffersrc_parameters_alloc := fun w =>
    .ok (ptr, record ("av_buffersrc_parameters_alloc", []) w)
  av_buffersink_get_hw_frames_ctx := fun c w =>
    .ok (ptr, record ("av_buffersink_get_hw_frames_ctx", [c]) w)

/-- A small heap: an Input at 4096 whose name buffer is at 8192, a Context at 16384,
buffer-source parameters at 20480, and a Link pointer variable at 24576 holding 28672. -/
def demoHeap : Addr → Option Obj := fun a =>
  if a = 4096 then some (.inout { name := 8192, filter_ctx := 16384, pad_idx := -1, next := 0 })
  else if a = 8192 then some (.chars [105, 110, 0, 120])
  else if a = 16384 then some (.context { hw_device_ctx := 0, others := [7, 9] })
  else if a = 20480 then some (.params { hw_frames_ctx := 0, others := [1, 2, 3] })
  else if a = 24576 then some (.cell 28672)
  else none

/-- The demo heap with an empty journal. -/
def demo : World (List Event) := { heap := demoHeap, top := 32768, lib := [] }

/-- The recording library with its pad count replaced by the reference model. -/
def recorderWithPadCount (status : Int) (ptr : Addr) : Native (List Event) :=
  { recorder status ptr with avfilter_pad_count := libavfilter.avfilter_pad_count }

/-! ## Properties named in the statements -/

/-- The wrapper outcome out hands back the native outcome nat with the status untouched:
whenever the native call returns a status r in the range of a C int, the wrapper returns the
world the native call left and a Go int v of the same numeric value, so v is negative exactly
when r is and zero exactly when r is. -/
def ForwardsStatus (nat out : Except Fault (Int × World ω)) : Prop :=
  ∀ r w', nat = .ok (r, w') → InCInt r →
    ∃ v, out = .ok (v, w') ∧ v = r ∧ (v < 0 ↔ r < 0) ∧ (v = 0 ↔ r = 0)

/-- The wrapper outcome out is the Go string of the C string the native outcome nat points to:
a null pointer gives the empty string, and a pointer to a buffer bs holding a NUL gives the
bytes s of bs that come before its first NUL. -/
def DecodesString (nat : Except Fault (Addr × World ω))
    (out : Except Fault (List Byte × World ω)) : Prop :=
  (∀ w', nat = .ok (0, w') → out = .ok ([], w')) ∧
  (∀ p w' bs, nat = .ok (p, w') → p ≠ 0 → w'.heap p = some (.chars bs) → 0 ∈ bs →
    ∃ s rest, out = .ok (s, w') ∧ bs = s ++ 0 :: rest ∧ 0 ∉ s)

/-! ## Arithmetic of the conversions -/

theorem wrapS_of_range (bits : Nat) (hb : 0 < bits) (v : Int)
    (hlo : -2 ^ (bits - 1) ≤ v) (hhi : v < 2 ^ (bits - 1)) : wrapS bits v = v := by
  unfold wrapS
  have hp : (2 : Int) ^ bits = 2 * 2 ^ (bits - 1) := by
    obtain ⟨k, rfl⟩ : ∃ k, bits = k + 1 := ⟨bits - 1, by omega⟩
    simp [pow_succ, mul_comm]
  rw [Int.emod_eq_of_lt (by omega) (by omega)]
  omega

theorem goInt_of_cint (a : Arch) (r : Int) (h : InCInt r) : goInt a r = r := by
  unfold InCInt at h
  cases a <;> simp only [goInt, Arch.intBits] <;>
    apply wrapS_of_range <;> norm_num <;> omega

theorem cint_of_range (x : Int) (h : InCInt x) : C.int x = x := by
  unfold InCInt at h
  unfold C.int
  apply wrapS_of_range <;> norm_num <;> omega

theorem cuint_of_range (x : Nat) (h : x < 2 ^ 32) : C.uint x = x := by
  unfold C.uint
  exact Nat.mod_eq_of_lt h

theorem goUint_nonneg (a : Arch) (x : Int) (h : InCInt x) (h0 : 0 ≤ x) :
    ((goUint a x : Nat) : Int) = x := by
  unfold InCInt at h
  cases a <;> simp only [goUint, wrapU, Arch.intBits] <;> omega

theorem goUint_neg (a : Arch) (x : Int) (h : InCInt x) (h0 : x < 0) :
    ((goUint a x : Nat) : Int) = x + 2 ^ a.intBits := by
  unfold InCInt at h
  cases a <;> simp only [goUint, wrapU, Arch.intBits] <;> omega

/-! ## Status codes cross the boundary unchanged -/

theorem forwardsStatus_retInt (a : Arch) (nat : Except Fault (Int × World ω)) :
    ForwardsStatus nat (nat.map (retInt a)) := by
  intro r w' h hr
  refine ⟨r, ?_, rfl, Iff.rfl, Iff.rfl⟩
  simp [h, Except.map, retInt, goInt_of_cint a r hr]

/-! ## C strings become Go strings -/

theorem takeWhile_before_nul (bs : List Byte) (h : 0 ∈ bs) :
    ∃ rest, bs = bs.takeWhile (· ≠ 0) ++ 0 :: rest ∧ 0 ∉ bs.takeWhile (· ≠ 0) := by
  induction bs with
  | nil => simp at h
  | cons b tl ih =>
    by_cases hb : b = 0
    · subst hb
      exact ⟨tl, by simp [List.takeWhile], by simp [List.takeWhile]⟩
    · have htl : 0 ∈ tl := by
        rcases List.mem_cons.mp h with h0 | h0
        · exact absurd h0.symm hb
        · exact h0
      obtain ⟨rest, h1, h2⟩ := ih htl
      refine ⟨rest, ?_, ?_⟩
      · simp only [List.takeWhile, hb, ne_eq, not_false_eq_true, decide_True, List.cons_append]
        exact congrArg (List.cons b) h1
      · simp only [List.takeWhile, hb, ne_eq, not_false_eq_true, decide_True, List.mem_cons,
          not_or]
        exact ⟨fun h0 => hb h0.symm, h2⟩

theorem decodesString_retString (nat : Except Fault (Addr × World ω)) :
    DecodesString nat (retString nat) := by
  constructor
  · intro w' h
    simp [h, retString, C.GoString]
  · intro p w' bs h hp hbs h0
    obtain ⟨rest, h1, h2⟩ := takeWhile_before_nul bs h0
    refine ⟨bs.takeWhile (· ≠ 0), rest, ?_, h1, h2⟩
    simp [h, retString, C.GoString, hp, hbs, h0]

/-! ## The claims -/

/-- C1: on a live Context, SetHWDeviceCtx(h) followed at once by HWDeviceCtx() returns the very
address h that was set, for every handle h, the null handle included. -/
theorem C1_hw_device_ctx_round_trip (w : World ω) (ctx h : Addr) (c : Context)
    (hnn : ctx ≠ 0) (hlive : w.heap ctx = some (.context c)) :
    ∃ w', Context.SetHWDeviceCtx ctx h w = .ok w' ∧ Context.HWDeviceCtx ctx w' = .ok h := by
  refine ⟨w.store ctx (.context { c with hw_device_ctx := h }), ?_, ?_⟩
  · simp [Context.SetHWDeviceCtx, derefContext, hnn, hlive, Except.map]
  · simp [Context.HWDeviceCtx, derefContext, hnn, World.store, Except.map]

theorem C1_hw_device_ctx_round_trip_witness :
    (16384 : Addr) ≠ 0 ∧
    demo.heap 16384 = some (.context { hw_device_ctx := 0, others := [7, 9] }) ∧
    (∃ w', Context.SetHWDeviceCtx 16384 40960 demo = .ok w' ∧
      Context.HWDeviceCtx 16384 w' = .ok 40960) ∧
    (∃ w', Context.SetHWDeviceCtx 16384 0 demo = .ok w' ∧
      Context.HWDeviceCtx 16384 w' = .ok 0) :=
  ⟨by decide, rfl,
   C1_hw_device_ctx_round_trip demo 16384 40960 _ (by decide) rfl,
   C1_hw_device_ctx_round_trip demo 16384 0 _ (by decide) rfl⟩

/-- C2: each of the eleven status-returning wrappers hands back the status of its native call
with the same numeric value (hence the same sign, and zero exactly when the native status is
zero), for every status in the range of a C int. -/
theorem C2_status_forwarded (a : Arch) (N : Native ω) (w : World ω)
    (p q : Addr) (m n : Nat) (cmd arg res : List Byte) (l fl : Int) :
    ForwardsStatus (N.avfilter_link p (C.uint m) q (C.uint n) w) (AvfilterLink a N p m q n w) ∧
    ForwardsStatus (N.avfilter_config_links p w) (AvfilterConfigLinks a N p w) ∧
    ForwardsStatus
      (N.avfilter_process_command p (C.CString cmd w).1
        (C.CString arg (C.CString cmd w).2).1
        (C.CString res (C.CString arg (C.CString cmd w).2).2).1 (C.int l) (C.int fl)
        (C.CString res (C.CString arg (C.CString cmd w).2).2).2)
      (AvfilterProcessCommand a N p cmd arg res l fl w) ∧
    ForwardsStatus (N.avfilter_init_str p (C.CString arg w).1 (C.CString arg w).2)
      (Context.AvfilterInitStr a N p arg w) ∧
    ForwardsStatus (N.avfilter_init_dict p q w) (Context.AvfilterInitDict a N p q w) ∧
    ForwardsStatus (N.avfilter_insert_filter p q (C.uint m) (C.uint n) w)
      (AvfilterInsertFilter a N p q m n w) ∧
    ForwardsStatus (N.av_buffersink_get_frame p q w) (AvBufferSinkGetFrame a N p q w) ∧
    ForwardsStatus (N.av_buffersink_get_frame_flags p q (C.int fl) w)
      (AvBufferSinkGetFrameFlags a N p q fl w) ∧
    ForwardsStatus (N.av_buffersrc_write_frame p q w) (AvBuffersrcWriteFrame a N p q w) ∧
    ForwardsStatus (N.av_buffersrc_add_frame p q w) (AvBuffersrcAddFrame a N p q w) ∧
    ForwardsStatus (N.av_buffersrc_parameters_set p q w)
      (Context.AvBuffersrcParametersSet a N p q w) :=
  ⟨forwardsStatus_retInt a _, forwardsStatus_retInt a _, forwardsStatus_retInt a _,
   forwardsStatus_retInt a _, forwardsStatus_retInt a _, forwardsStatus_retInt a _,
   forwardsStatus_retInt a _, forwardsStatus_retInt a _, forwardsStatus_retInt a _,
   forwardsStatus_retInt a _, forwardsStatus_retInt a _⟩

theorem C2_status_forwarded_witness :
    InCInt (-22) ∧
    (∃ v, AvfilterLink .bits64 (recorder (-22) 0) 16384 0 16384 0 demo
        = .ok (v, record ("avfilter_link", [16384, 0, 16384, 0]) demo) ∧
      v = -22 ∧ (v < 0 ↔ (-22 : Int) < 0) ∧ (v = 0 ↔ (-22 : Int) = 0)) ∧
    (∃ v, AvBufferSinkGetFrame .bits32 (recorder (-22) 0) 16384 0 demo
        = .ok (v, record ("av_buffersink_get_frame", [16384, 0]) demo) ∧
      v = -22 ∧ (v < 0 ↔ (-22 : Int) < 0) ∧ (v = 0 ↔ (-22 : Int) = 0)) :=
  ⟨by decide,
   (C2_status_forwarded .bits64 (recorder (-22) 0) demo 16384 16384 0 0 [] [] [] 0 0).1
     (-22) _ rfl (by decide),
   (C2_status_forwarded .bits32 (recorder (-22) 0) demo 16384 0 0 0 [] [] [] 0
     0).2.2.2.2.2.2.1 (-22) _ rfl (by decide)⟩

/-- C3, as amended: each of the six accessors panics with a nil dereference on a null receiver,
writing nothing; on a non-null receiver that addresses a live struct none of them fails, and the
getters return the stored member (a null or zero member comes back as null or zero). -/
theorem C3_nil_receiver_panics (a : Arch) (w : World ω) (h : Addr) :
    (Input.FilterContext 0 w = .error .nilDeref ∧
     Input.Next 0 w = .error .nilDeref ∧
     Input.PadIdx a 0 w = .error .nilDeref ∧
     Context.HWDeviceCtx 0 w = .error .nilDeref ∧
     Context.SetHWDeviceCtx 0 h w = .error .nilDeref ∧
     BufferSrcParameters.SetHwFramesCtx 0 h w = .error .nilDeref) ∧
    (∀ i s, i ≠ 0 → w.heap i = some (.inout s) →
      Input.FilterContext i w = .ok s.filter_ctx ∧
      Input.Next i w = .ok s.next ∧
      Input.PadIdx a i w = .ok (goUint a s.pad_idx)) ∧
    (∀ ctx c, ctx ≠ 0 → w.heap ctx = some (.context c) →
      Context.HWDeviceCtx ctx w = .ok c.hw_device_ctx ∧
      ∃ w', Context.SetHWDeviceCtx ctx h w = .ok w') ∧
    (∀ p s, p ≠ 0 → w.heap p = some (.params s) →
      ∃ w', BufferSrcParameters.SetHwFramesCtx p h w = .ok w') := by
  refine ⟨⟨rfl, rfl, rfl, rfl, rfl, rfl⟩, ?_, ?_, ?_⟩
  · intro i s hi hs
    simp [Input.FilterContext, Input.Next, Input.PadIdx, derefInput, hi, hs, Except.map]
  · intro ctx c hc hs
    simp [Context.HWDeviceCtx, Context.SetHWDeviceCtx, derefContext, hc, hs, Except.map]
  · intro p s hp hs
    simp [BufferSrcParameters.SetHwFramesCtx, derefParams, hp, hs, Except.map]

theorem C3_nil_receiver_panics_witness :
    Input.Next 0 demo = .error .nilDeref ∧
    Input.FilterContext 4096 demo = .ok 16384 ∧
    Input.Next 4096 demo = .ok 0 ∧
    Context.HWDeviceCtx 16384 demo = .ok 0 :=
  ⟨(C3_nil_receiver_panics .bits64 demo 0).1.2.1,
   ((C3_nil_receiver_panics .bits64 demo 0).2.1 4096 _ (by decide) rfl).1,
   ((C3_nil_receiver_panics .bits64 demo 0).2.1 4096 _ (by decide) rfl).2.1,
   ((C3_nil_receiver_panics .bits64 demo 0).2.2.1 16384 _ (by decide) rfl).1⟩

/-- C3, the claim as written fails: with a null receiver the getters panic instead of returning
a null result, and the setters panic as well. -/
theorem C3_null_receiver_counterexample :
    Input.FilterContext 0 demo = .error .nilDeref ∧
    Input.FilterContext 0 demo ≠ .ok 0 ∧
    Input.Next 0 demo = .error .nilDeref ∧
    Input.PadIdx .bits64 0 demo = .error .nilDeref ∧
    Context.HWDeviceCtx 0 demo = .error .nilDeref ∧
    Context.SetHWDeviceCtx 0 40960 demo = .error .nilDeref ∧
    BufferSrcParameters.SetHwFramesCtx 0 40960 demo = .error .nilDeref :=
  ⟨rfl, by simp [Input.FilterContext, derefInput, Except.map], rfl, rfl, rfl, rfl, rfl⟩

/-- C4, as amended: the native call receives every integer argument reduced to its 32-bit C
type, the pad indexes of AvfilterLink modulo 2^32 and the pad index of AvfilterPadGetName and
AvfilterPadGetType wrapped to a signed 32-bit value. Arguments that fit the C type are forwarded
with the same numeric value, and two distinct arguments that fit are forwarded as distinct
values; every uint of a 32-bit host fits. -/
theorem C4_arguments_reduced_to_c_width (a : Arch) (N : Native ω) (w : World ω)
    (s d p : Addr) (sp dp : Nat) (pi : Int) :
    AvfilterLink a N s sp d dp w
      = (N.avfilter_link s (sp % 2 ^ 32) d (dp % 2 ^ 32) w).map (retInt a) ∧
    AvfilterPadGetName N p pi w = retString (N.avfilter_pad_get_name p (wrapS 32 pi) w) ∧
    AvfilterPadGetType N p pi w = N.avfilter_pad_get_type p (wrapS 32 pi) w ∧
    (sp < 2 ^ 32 → dp < 2 ^ 32 →
      AvfilterLink a N s sp d dp w = (N.avfilter_link s sp d dp w).map (retInt a)) ∧
    (InCInt pi →
      AvfilterPadGetName N p pi w = retString (N.avfilter_pad_get_name p pi w) ∧
      AvfilterPadGetType N p pi w = N.avfilter_pad_get_type p pi w) ∧
    (∀ sp', sp < 2 ^ 32 → sp' < 2 ^ 32 → C.uint sp = C.uint sp' → sp = sp') ∧
    (∀ pi', InCInt pi → InCInt pi' → C.int pi = C.int pi' → pi = pi') ∧
    (a = .bits32 → sp < 2 ^ a.intBits → C.uint sp = sp) := by
  refine ⟨rfl, rfl, rfl, ?_, ?_, ?_, ?_, ?_⟩
  · intro h1 h2
    rw [AvfilterLink, cuint_of_range sp h1, cuint_of_range dp h2]
  · intro h
    simp [AvfilterPadGetName, AvfilterPadGetType, cint_of_range pi h]
  · intro sp' h1 h2 h
    rwa [cuint_of_range sp h1, cuint_of_range sp' h2] at h
  · intro pi' h1 h2 h
    rwa [cint_of_range pi h1, cint_of_range pi' h2] at h
  · intro ha h
    subst ha
    exact cuint_of_range sp h

theorem C4_arguments_reduced_to_c_width_witness :
    (3 : Nat) < 2 ^ 32 ∧ (5 : Nat) < 2 ^ 32 ∧
    AvfilterLink .bits64 (recorder 0 0) 16384 3 16384 5 demo
      = .ok (0, record ("avfilter_link", [16384, 3, 16384, 5]) demo) :=
  ⟨by decide, by decide,
   ((C4_arguments_reduced_to_c_width .bits64 (recorder 0 0) demo 16384 16384 0 3 5 0).2.2.2.1
      (by decide) (by decide)).trans rfl⟩

/-- C4, the claim as written fails on a 64-bit host: the pad indexes 2^32 and 2^32+1 reach the
native link function as 0 and 1, exactly as the pad indexes 0 and 1 do, and the pad index 2^32
reaches the native pad query as 0. -/
theorem C4_truncation_counterexample :
    (2 ^ 32 + 1 : Nat) < 2 ^ Arch.bits64.intBits ∧
    (AvfilterLink .bits64 (recorder 0 0) 16384 (2 ^ 32) 16384 (2 ^ 32 + 1) demo).map
        (fun r => r.2.lib) = .ok [("avfilter_link", [16384, 0, 16384, 1])] ∧
    (AvfilterLink .bits64 (recorder 0 0) 16384 0 16384 1 demo).map
        (fun r => r.2.lib) = .ok [("avfilter_link", [16384, 0, 16384, 1])] ∧
    (AvfilterPadGetType (recorder 0 0) 12288 (2 ^ 32) demo).map
        (fun r => r.2.lib) = .ok [("avfilter_pad_get_type", [12288, 0])] ∧
    (AvfilterPadGetName (recorder 0 0) 12288 (2 ^ 32) demo).map
        (fun r => r.2.lib) = .ok [("avfilter_pad_get_name", [12288, 0])] :=
  ⟨by decide, rfl, rfl, rfl, rfl⟩

/-- C5, the code at a concrete Input: AvfilterInoutFree hands the native free function the
address of the Input struct itself, so what the native side reads there as the pointer to free
is the struct's first member (8192), not the Input handle (4096); AvfilterLinkFree, given the
address of a Link pointer variable, hands over a cell whose content is the Link handle. -/
theorem C5_inout_free_passes_struct_address :
    AvfilterInoutFree (recorder 0 0) 4096 demo
      = .ok (record ("avfilter_inout_free", [4096]) demo) ∧
    demo.heap 4096
      = some (.inout { name := 8192, filter_ctx := 16384, pad_idx := -1, next := 0 }) ∧
    loadPtr 4096 demo = .ok 8192 ∧
    AvfilterLinkFree (recorder 0 0) 24576 demo
      = .ok (record ("avfilter_link_free", [24576]) demo) ∧
    loadPtr 24576 demo = .ok 28672 :=
  ⟨rfl, rfl, rfl, rfl, rfl⟩

/-- C6: each of the three string-returning queries turns a null native result into the empty Go
string without failing, and a pointer to a NUL-terminated buffer into exactly the bytes that
come before the first NUL. -/
theorem C6_strings_decoded (N : Native ω) (w : World ω) (p : Addr) (pi : Int) :
    DecodesString (N.avfilter_pad_get_name p (C.int pi) w) (AvfilterPadGetName N p pi w) ∧
    DecodesString (N.avfilter_configuration w) (AvfilterConfiguration N w) ∧
    DecodesString (N.avfilter_license w) (AvfilterLicense N w) :=
  ⟨decodesString_retString _, decodesString_retString _, decodesString_retString _⟩

theorem C6_strings_decoded_witness :
    AvfilterLicense (recorder 0 0) demo = .ok ([], record ("avfilter_license", []) demo) ∧
    (∃ s rest, AvfilterConfiguration (recorder 0 8192) demo
        = .ok (s, record ("avfilter_configuration", []) demo) ∧
      [105, 110, 0, 120] = s ++ 0 :: rest ∧ 0 ∉ s) ∧
    AvfilterConfiguration (recorder 0 8192) demo
      = .ok ([105, 110], record ("avfilter_configuration", []) demo) :=
  ⟨(C6_strings_decoded (recorder 0 0) demo 0 0).2.2.1 _ rfl,
   (C6_strings_decoded (recorder 0 8192) demo 0 0).2.1.2 8192 _ [105, 110, 0, 120] rfl
     (by decide) rfl (by decide),
   rfl⟩

/-- C7: with the native pad count behaving as the reference model does, AvfilterPadCount of a
null pad list returns 0 on either host width. -/
theorem C7_pad_count_null (a : Arch) (N : Native ω) (w : World ω)
    (hN : N.avfilter_pad_count = libavfilter.avfilter_pad_count) :
    AvfilterPadCount a N 0 w = .ok (0, w) := by
  cases a <;> simp [AvfilterPadCount, hN, libavfilter.avfilter_pad_count, Except.map, retInt,
    goInt, wrapS, Arch.intBits]

theorem C7_pad_count_null_witness :
    (recorderWithPadCount 5 0).avfilter_pad_count = libavfilter.avfilter_pad_count ∧
    AvfilterPadCount .bits64 (recorderWithPadCount 5 0) 0 demo = .ok (0, demo) :=
  ⟨rfl, C7_pad_count_null .bits64 (recorderWithPadCount 5 0) demo rfl⟩

/-- C8, as amended: on a live Input whose pad_idx member is non-negative, PadIdx returns that
value; when the member is negative, PadIdx returns the member plus 2^W, W being the width of the
host uint, which is not the member's numeric value. -/
theorem C8_pad_idx_converted (a : Arch) (w : World ω) (i : Addr) (s : Input)
    (hi : i ≠ 0) (hlive : w.heap i = some (.inout s)) (hr : InCInt s.pad_idx) :
    ∃ v : Nat, Input.PadIdx a i w = .ok v ∧
      (0 ≤ s.pad_idx → (v : Int) = s.pad_idx) ∧
      (s.pad_idx < 0 → (v : Int) = s.pad_idx + 2 ^ a.intBits ∧ (v : Int) ≠ s.pad_idx) := by
  refine ⟨goUint a s.pad_idx, ?_, goUint_nonneg a _ hr, ?_⟩
  · simp [Input.PadIdx, derefInput, hi, hlive, Except.map]
  · intro hneg
    refine ⟨goUint_neg a _ hr hneg, ?_⟩
    have := Int.natCast_nonneg (goUint a s.pad_idx)
    omega

theorem C8_pad_idx_converted_witness :
    (4096 : Addr) ≠ 0 ∧ InCInt (-1) ∧
    ∃ v : Nat, Input.PadIdx .bits32 4096 demo = .ok v ∧
      (0 ≤ (-1 : Int) → (v : Int) = -1) ∧
      ((-1 : Int) < 0 → (v : Int) = -1 + 2 ^ Arch.bits32.intBits ∧ (v : Int) ≠ -1) :=
  ⟨by decide, by decide,
   C8_pad_idx_converted .bits32 demo 4096
     { name := 8192, filter_ctx := 16384, pad_idx := -1, next := 0 } (by decide) rfl
     (by decide)⟩

/-- C8, the claim as written fails: an Input whose pad_idx member is -1 has PadIdx return
2^64 - 1 on a 64-bit host and 2^32 - 1 on a 32-bit host. -/
theorem C8_negative_pad_idx_counterexample :
    demo.heap 4096
      = some (.inout { name := 8192, filter_ctx := 16384, pad_idx := -1, next := 0 }) ∧
    Input.PadIdx .bits64 4096 demo = .ok 18446744073709551615 ∧
    Input.PadIdx .bits32 4096 demo = .ok 4294967295 ∧
    ((18446744073709551615 : Nat) : Int) ≠ -1 :=
  ⟨rfl, rfl, rfl, by decide⟩

/-- C9, as amended: the native call receives, as response buffer, the NUL-terminated copy of
res (len(res)+1 bytes) and, as its length, the caller's l converted to a C int, whatever the
length of res; the length received is within the buffer when the caller passes an l that fits
a C int and is at most len(res)+1. -/
theorem C9_response_length_forwarded (a : Arch) (N : Native ω) (w : World ω) (f : Addr)
    (cmd arg res : List Byte) (l fl : Int) :
    AvfilterProcessCommand a N f cmd arg res l fl w
      = (N.avfilter_process_command f (C.CString cmd w).1
          (C.CString arg (C.CString cmd w).2).1
          (C.CString res (C.CString arg (C.CString cmd w).2).2).1 (wrapS 32 l) (wrapS 32 fl)
          (C.CString res (C.CString arg (C.CString cmd w).2).2).2).map (retInt a) ∧
    (C.CString res (C.CString arg (C.CString cmd w).2).2).2.heap
        (C.CString res (C.CString arg (C.CString cmd w).2).2).1
      = some (.chars (res ++ [0])) ∧
    (res ++ [0]).length = res.length + 1 ∧
    (InCInt l → l ≤ res.length + 1 →
      wrapS 32 l = l ∧ wrapS 32 l ≤ ((res ++ [0]).length : Int)) := by
  refine ⟨rfl, ?_, by simp, ?_⟩
  · simp [C.CString]
  · intro hl hle
    have h := cint_of_range l hl
    unfold C.int at h
    rw [h]
    refine ⟨rfl, ?_⟩
    simp only [List.length_append, List.length_singleton, Nat.cast_add, Nat.cast_one]
    exact hle

theorem C9_response_length_forwarded_witness :
    InCInt 3 ∧ (3 : Int) ≤ (([104, 105] : List Byte).length : Nat) + 1 ∧
    wrapS 32 3 = 3 ∧ wrapS 32 3 ≤ ((([104, 105] : List Byte) ++ [0]).length : Int) :=
  ⟨by decide, by decide,
   (C9_response_length_forwarded .bits64 (recorder 0 0) demo 16384 [] [] [104, 105] 3 0).2.2.2
     (by decide) (by decide)⟩

/-- C9, the claim as written fails: with an empty res and l = 4096 the native call is told the
response buffer holds 4096 bytes while the buffer handed over (at 32771) holds one byte. -/
theorem C9_length_exceeds_buffer_counterexample :
    (AvfilterProcessCommand .bits64 (recorder 0 0) 16384 [] [] [] 4096 0 demo).map
        (fun r => (r.2.lib, r.2.heap 32771))
      = .ok ([("avfilter_process_command", [16384, 32769, 32770, 32771, 4096, 0])],
             some (.chars [0])) ∧
    (4096 : Int) > (([] : List Byte).length : Int) + 1 :=
  ⟨rfl, by decide⟩

/-- C10: on a live receiver, SetHWDeviceCtx(h) replaces the hw_device_ctx member of that one
Context and nothing else (the other members of the struct, every other object in memory, the
allocator and the library state stay as they were), SetHwFramesCtx(h) does the same for the
hw_frames_ctx member of the parameters struct, and setting the same handle a second time leaves
the state as it was after the first. -/
theorem C10_setters_touch_one_member (w : World ω) (h : Addr) :
    (∀ ctx c, ctx ≠ 0 → w.heap ctx = some (.context c) →
      ∃ w', Context.SetHWDeviceCtx ctx h w = .ok w' ∧
        w'.heap ctx = some (.context { hw_device_ctx := h, others := c.others }) ∧
        (∀ x, x ≠ ctx → w'.heap x = w.heap x) ∧ w'.top = w.top ∧ w'.lib = w.lib ∧
        Context.SetHWDeviceCtx ctx h w' = .ok w') ∧
    (∀ p s, p ≠ 0 → w.heap p = some (.params s) →
      ∃ w', BufferSrcParameters.SetHwFramesCtx p h w = .ok w' ∧
        w'.heap p = some (.params { hw_frames_ctx := h, others := s.others }) ∧
        (∀ x, x ≠ p → w'.heap x = w.heap x) ∧ w'.top = w.top ∧ w'.lib = w.lib ∧
        BufferSrcParameters.SetHwFramesCtx p h w' = .ok w') := by
  constructor
  · intro ctx c hc hs
    refine ⟨w.store ctx (.context { c with hw_device_ctx := h }), ?_, ?_, ?_, rfl, rfl, ?_⟩
    · simp [Context.SetHWDeviceCtx, derefContext, hc, hs, Except.map]
    · simp [World.store]
    · intro x hx
      simp [World.store, Function.update_noteq hx]
    · simp [Context.SetHWDeviceCtx, derefContext, hc, World.store, Except.map]
  · intro p s hp hs
    refine ⟨w.store p (.params { s with hw_frames_ctx := h }), ?_, ?_, ?_, rfl, rfl, ?_⟩
    · simp [BufferSrcParameters.SetHwFramesCtx, derefParams, hp, hs, Except.map]
    · simp [World.store]
    · intro x hx
      simp [World.store, Function.update_noteq hx]
    · simp [BufferSrcParameters.SetHwFramesCtx, derefParams, hp, World.store, Except.map]

theorem C10_setters_touch_one_member_witness :
    (∃ w', Context.SetHWDeviceCtx 16384 40960 demo = .ok w' ∧
      w'.heap 16384 = some (.context { hw_device_ctx := 40960, others := [7, 9] }) ∧
      (∀ x, x ≠ 16384 → w'.heap x = demo.heap x) ∧ w'.top = demo.top ∧ w'.lib = demo.lib ∧
      Context.SetHWDeviceCtx 16384 40960 w' = .ok w') ∧
    (∃ w', BufferSrcParameters.SetHwFramesCtx 20480 40960 demo = .ok w' ∧
      w'.heap 20480 = some (.params { hw_frames_ctx := 40960, others := [1, 2, 3] }) ∧
      (∀ x, x ≠ 20480 → w'.heap x = demo.heap x) ∧ w'.top = demo.top ∧ w'.lib = demo.lib ∧
      BufferSrcParameters.SetHwFramesCtx 20480 40960 w' = .ok w') :=
  ⟨(C10_setters_touch_one_member demo 40960).1 16384 _ (by decide) rfl,
   (C10_setters_touch_one_member demo 40960).2 20480 _ (by decide) rfl⟩

/-! ## Further properties of the wrappers -/

/-- AvfilterVersion returns the version number the native call reports, for every value of a
C unsigned, on either host width. -/
theorem AvfilterVersion_forwards (a : Arch) (N : Native ω) (w w' : World ω) (v : Nat)
    (hv : v < 2 ^ 32) (h : N.avfilter_version w = .ok (v, w')) :
    AvfilterVersion a N w = .ok (v, w') := by
  have hg : goUint a (v : Int) = v := by
    cases a <;> simp only [goUint, wrapU, Arch.intBits] <;> omega
  simp [AvfilterVersion, h, Except.map, hg]

theorem AvfilterVersion_forwards_witness :
    (0 : Nat) < 2 ^ 32 ∧
    AvfilterVersion .bits32 (recorder 0 0) demo
      = .ok (0, record ("avfilter_version", []) demo) :=
  ⟨by decide, AvfilterVersion_forwards .bits32 (recorder 0 0) demo _ 0 (by decide) rfl⟩

/-- AvfilterPadCount and AvfilterLinkGetChannels return the count the native call reports with
the same numeric value, for every value of a C int. -/
theorem counts_forwarded (a : Arch) (N : Native ω) (w : World ω) (p : Addr) :
    ForwardsStatus (N.avfilter_pad_count p w) (AvfilterPadCount a N p w) ∧
    ForwardsStatus (N.avfilter_link_get_channels p w) (AvfilterLinkGetChannels a N p w) :=
  ⟨forwardsStatus_retInt a _, forwardsStatus_retInt a _⟩

theorem counts_forwarded_witness :
    InCInt 2 ∧
    ∃ v, AvfilterLinkGetChannels .bits64 (recorder 2 0) 28672 demo
        = .ok (v, record ("avfilter_link_get_channels", [28672]) demo) ∧
      v = 2 ∧ (v < 0 ↔ (2 : Int) < 0) ∧ (v = 0 ↔ (2 : Int) = 0) :=
  ⟨by decide, (counts_forwarded .bits64 (recorder 2 0) demo 28672).2 2 _ rfl (by decide)⟩

end Avfilter
